import Mathlib

/-!
Shallow embedding of the google-meet-mcp-server repository.

The embedding covers:
* `AuthServer` (src/AuthServer.js): token validation with refresh
  (`hasValidTokens`), credential loading (`loadCredentials`), port scanning
  (`findAvailablePort`), the OAuth callback HTTP handler (`handleRequest`),
  the `start` entry point, and the `stop` teardown.
* `GoogleMeetAPI` (GoogleMeetAPI.js): conflict checking
  (`checkTimeConflicts`, `checkAvailability`), partial update construction
  (`applyUpdates` inside `updateMeeting`), conference request id generation
  in `createMeeting`, and the meeting formatter (`formatMeetingData`).

JavaScript values that may be `undefined` are modelled as `Option`;
JavaScript truthiness on strings (where `''` is falsy) and on numbers
(where `0` is falsy) is modelled explicitly by `jsTruthyStr` / `jsTruthyInt`,
because several branches of the source test raw truthiness
(`if (!tokens.access_token)`, `if (error)`, `tokens.expiry_date && ...`).
External effects (file system reads/writes, the Google token endpoint, the
event loop) are modelled as explicit environment fields recording the
outcome each external call would produce.
-/

namespace GoogleMeetMcp

/-- JavaScript truthiness of a possibly-undefined string: `undefined`/`null`
and the empty string are falsy, every other string is truthy. -/
def jsTruthyStr : Option String → Bool
  | none => false
  | some s => !(s == "")

/-- JavaScript truthiness of a possibly-undefined integer: `undefined`/`null`
and `0` are falsy, every other integer is truthy. -/
def jsTruthyInt : Option Int → Bool
  | none => false
  | some e => !(e == 0)

/-- JavaScript `x || d` on a possibly-undefined string with a string
default, as used in `event.summary || '無標題'` and similar. -/
def jsOrStr (o : Option String) (d : String) : String :=
  match o with
  | none => d
  | some s => if s == "" then d else s

/-! ### Credential bundle and `AuthServer.hasValidTokens`
(src/AuthServer.js lines 26-57) -/

/-- Persisted credential bundle, the parse of the token file
(`scope`/`token_type` fields are never inspected by the code and are
omitted). -/
structure CredentialBundle where
  access_token : Option String
  refresh_token : Option String
  expiry_date : Option Int
  deriving DecidableEq, Repr

/-- Environment of one `hasValidTokens` call: outcome of each external
action the method performs. -/
structure TokenEnv where
  /-- Result of `fs.readFile(tokenPath)` + `JSON.parse`: `none` means the
  read or the parse threw. -/
  tokenFile : Option CredentialBundle
  /-- `Date.now()` at the expiry check. -/
  now : Int
  /-- Whether `loadCredentials()` succeeds. -/
  credentialsOk : Bool
  /-- Outcome of `oAuth2Client.refreshToken`: the refreshed bundle on
  success, `none` if the provider call threw. -/
  refreshResult : Option CredentialBundle
  /-- Whether `saveTokens` (mkdir + writeFile) succeeds. -/
  saveOk : Bool

/-- Result of a `hasValidTokens` call: the boolean returned, the token
file content afterwards, and whether a write to the token file happened. -/
structure TokenCheckOutcome where
  valid : Bool
  disk : Option CredentialBundle
  wrote : Bool
  deriving DecidableEq, Repr

/-- `AuthServer.hasValidTokens` (src/AuthServer.js lines 26-57): read and
parse the token file; require truthy `access_token` and `refresh_token`;
if `expiry_date` is truthy and in the past, attempt a refresh and persist
the refreshed bundle, returning `false` if any step of the refresh path
throws; otherwise return `true`. -/
def hasValidTokens (env : TokenEnv) : TokenCheckOutcome :=
  match env.tokenFile with
  | none => { valid := false, disk := none, wrote := false }
  | some tokens =>
    if !(jsTruthyStr tokens.access_token) || !(jsTruthyStr tokens.refresh_token) then
      { valid := false, disk := some tokens, wrote := false }
    else
      let expired : Bool :=
        jsTruthyInt tokens.expiry_date && decide (tokens.expiry_date.getD 0 < env.now)
      if expired then
        if env.credentialsOk then
          match env.refreshResult with
          | some newCredentials =>
            if env.saveOk then
              { valid := true, disk := some newCredentials, wrote := true }
            else
              { valid := false, disk := some tokens, wrote := false }
          | none => { valid := false, disk := some tokens, wrote := false }
        else
          { valid := false, disk := some tokens, wrote := false }
      else
        { valid := true, disk := some tokens, wrote := false }

/-! ### `AuthServer.loadCredentials` (src/AuthServer.js lines 62-80) -/

/-- OAuth client configuration extracted from the credentials file. -/
structure ClientConfig where
  client_id : String
  client_secret : String
  deriving DecidableEq, Repr

/-- Parsed credentials file: may carry a `web` shape, an `installed`
shape, both, or neither. -/
structure CredentialsFile where
  web : Option ClientConfig
  installed : Option ClientConfig
  deriving DecidableEq, Repr

/-- `AuthServer.loadCredentials`: read and parse the credentials file
(`none` input means the read or parse threw); prefer the `web` shape,
fall back to `installed`, and throw (`none` output) when neither is
present. -/
def loadCredentials (file : Option CredentialsFile) : Option ClientConfig :=
  match file with
  | none => none
  | some credentials =>
    match credentials.web with
    | some c => some c
    | none => credentials.installed

/-! ### `AuthServer.findAvailablePort` (src/AuthServer.js lines 338-364)

The loop tries each port of the range in order; a successful `listen`
stores the test server in `this.server` and returns the port, an
`EADDRINUSE` error closes the test server and moves on.  The returned
`Option Nat` is therefore also the binding: `some p` means the listener
is bound at `p`, `none` means the final `throw` fired and no listener was
ever kept. -/

/-- Scan `fuel` consecutive ports starting at `port`, returning the first
one that is not occupied. -/
def findAvailablePortAux (occupied : Nat → Bool) : Nat → Nat → Option Nat
  | _, 0 => none
  | port, fuel + 1 =>
    if occupied port then findAvailablePortAux occupied (port + 1) fuel
    else some port

/-- `AuthServer.findAvailablePort(startPort, endPort)`: first free port in
`[startPort, endPort]`, or `none` (the thrown range-exhausted error) when
every port of the range is occupied. -/
def findAvailablePort (occupied : Nat → Bool) (startPort : Nat := 3000)
    (endPort : Nat := 3010) : Option Nat :=
  findAvailablePortAux occupied startPort (endPort + 1 - startPort)

/-! ### The OAuth callback HTTP handler (src/AuthServer.js lines 108-333) -/

/-- Query string of a request as the handler reads it:
`url.searchParams.get('code')` and `url.searchParams.get('error')`, each
`none` when the parameter is absent. -/
structure CallbackQuery where
  code : Option String
  error : Option String
  deriving DecidableEq, Repr

/-- The HTML page rendered by each branch of the request handler. -/
inductive AuthPage where
  /-- Root route: consent-link page. -/
  | consentPage
  /-- Callback with a truthy `error` parameter: authorization-failed page. -/
  | errorParamPage
  /-- Callback without a truthy `code`: plain-text missing-code reply. -/
  | missingCodePage
  /-- Callback whose code exchange and token save succeeded. -/
  | successPage
  /-- Callback whose code exchange or token save threw. -/
  | exchangeFailPage
  /-- Any other path. -/
  | notFoundPage
  deriving DecidableEq, Repr

/-- HTTP status and page of a handler reply. -/
structure HttpResponse where
  status : Nat
  page : AuthPage
  deriving DecidableEq, Repr

/-- One request through the server handler built in
`AuthServer.createServer`.  `flag` is `this.authCompletedSuccessfully`
before the request, `exchangeOk` records whether
`oAuth2Client.getToken(code)` followed by `saveTokens` succeeds; the
result is the flag after the request and the response sent. -/
def handleRequest (pathname : String) (q : CallbackQuery) (exchangeOk : Bool)
    (flag : Bool) : Bool × HttpResponse :=
  if pathname == "/" then
    (flag, { status := 200, page := AuthPage.consentPage })
  else if pathname == "/oauth2callback" then
    if jsTruthyStr q.error then
      (flag, { status := 400, page := AuthPage.errorParamPage })
    else if !(jsTruthyStr q.code) then
      (flag, { status := 400, page := AuthPage.missingCodePage })
    else if exchangeOk then
      (true, { status := 200, page := AuthPage.successPage })
    else
      (false, { status := 500, page := AuthPage.exchangeFailPage })
  else
    (flag, { status := 404, page := AuthPage.notFoundPage })

/-! ### `AuthServer.start` (src/AuthServer.js lines 369-431)

The wait loop polls `authCompletedSuccessfully` every second and a
5-minute (300 000 ms) timeout resolves `false` when the flag is still
unset.  Time is modelled in one-second ticks: the callback that sets the
flag is an optional event carrying the tick at which it is processed. -/

/-- The 5-minute timeout of the wait loop, in one-second polling ticks. -/
def authTimeoutTicks : Nat := 300

/-- The one OAuth redirect delivered to the listener during the wait, if
any: when it is processed, its query, and whether the code-for-token
exchange plus save succeed. -/
structure CallbackEvent where
  tick : Nat
  query : CallbackQuery
  exchangeOk : Bool

/-- Environment of one `AuthServer.start` call. -/
structure AuthEnv where
  /-- Environment of the initial `hasValidTokens` check. -/
  tokenEnv : TokenEnv
  /-- Parse of the credentials file for `loadCredentials`. -/
  credFile : Option CredentialsFile
  /-- Port occupancy for `findAvailablePort`. -/
  occupied : Nat → Bool
  /-- Whether `open(authUrl)` succeeds (best effort, failure only logged). -/
  browserOpens : Bool
  /-- The OAuth redirect arriving on the listener, if any. -/
  callback : Option CallbackEvent

/-- Outcome of the polling wait: `true` exactly when a callback is
processed no later than the timeout tick and it sets
`authCompletedSuccessfully` (the handler sets the flag only for a truthy
`code`, no truthy `error`, and a successful exchange). -/
def waitOutcome (cb : Option CallbackEvent) : Bool :=
  match cb with
  | none => false
  | some ev =>
    (handleRequest "/oauth2callback" ev.query ev.exchangeOk false).1
      && decide (ev.tick ≤ authTimeoutTicks)

/-- `AuthServer.start(openBrowser)`: return `true` immediately when
`hasValidTokens` succeeds; otherwise load credentials, scan for a port,
open the browser best-effort, and wait for the completion flag with the
5-minute timeout.  Every thrown error is caught and converted to `false`;
the function is total and boolean-valued, so nothing escapes this
boundary.  `openBrowser` only selects the best-effort browser side
effect and never influences the returned value. -/
def AuthServer.start (env : AuthEnv) (openBrowser : Bool) : Bool :=
  if (hasValidTokens env.tokenEnv).valid then
    true
  else
    match loadCredentials env.credFile with
    | none => false
    | some _ =>
      match findAvailablePort env.occupied 3000 3010 with
      | none => false
      | some _ =>
        let _ := openBrowser && env.browserOpens
        waitOutcome env.callback

/-! ### Flow teardown: resolution step and `AuthServer.stop`
(src/AuthServer.js lines 408-431 and 436-464) -/

/-- Mutable resources of the flow while waiting: the polling interval,
the tracked sockets of the listener, and the listener handle
(`this.server !== null`). -/
structure FlowState where
  checkIntervalActive : Bool
  activeConnections : List Nat
  serverSome : Bool
  deriving DecidableEq, Repr

/-- What happens inside `start` when the wait resolves — either the
interval sees the flag set (COMPLETED) or the 5-minute timeout fires
(TIMED_OUT): both branches only call `clearInterval`; connections and the
listener are untouched. -/
def resolveWaitStep (s : FlowState) : FlowState :=
  { s with checkIntervalActive := false }

/-- Grace period of `AuthServer.stop` before the listener handle is
abandoned, in milliseconds. -/
def stopGraceMs : Nat := 2000

/-- Result of an `AuthServer.stop` call: state afterwards, the sockets on
which `destroy()` was called, when the returned promise resolves, and
whether the 2-second timer fired before `server.close` completed. -/
structure StopResult where
  state : FlowState
  destroyed : List Nat
  resolveTimeMs : Nat
  abandoned : Bool
  deriving DecidableEq, Repr

/-- `AuthServer.stop()`: when a server handle exists, destroy every
tracked connection, clear the tracking set, then close the listener; both
the close callback and the 2-second timer null the handle and resolve, so
the promise resolves after at most `stopGraceMs` even when the close
takes `closeDelayMs > stopGraceMs` (the handle is then abandoned).  With
no server handle the call resolves immediately and changes nothing. -/
def AuthServer.stop (s : FlowState) (closeDelayMs : Nat) : StopResult :=
  if s.serverSome then
    { state := { checkIntervalActive := s.checkIntervalActive,
                 activeConnections := [], serverSome := false },
      destroyed := s.activeConnections,
      resolveTimeMs := min closeDelayMs stopGraceMs,
      abandoned := decide (stopGraceMs < closeDelayMs) }
  else
    { state := s, destroyed := [], resolveTimeMs := 0, abandoned := false }

/-! ### Calendar event shape (GoogleMeetAPI.js)

The Google Calendar event object, restricted to the fields the repository
reads or writes.  Fields that may be absent on the wire are `Option`. -/

/-- `event.start` / `event.end`: at least one of `dateTime` and `date` is
set by the provider; the code reads `dateTime || date`. -/
structure EventTime where
  dateTime : Option String
  date : Option String
  timeZone : Option String
  deriving DecidableEq, Repr

/-- An attendee on the wire. -/
structure Attendee where
  email : String
  responseStatus : Option String
  optional : Option Bool
  deriving DecidableEq, Repr

/-- A conference entry point (`event.conferenceData.entryPoints[i]`). -/
structure EntryPoint where
  entryPointType : String
  uri : Option String
  label : Option String
  deriving DecidableEq, Repr

/-- `event.conferenceData`. -/
structure ConferenceData where
  conferenceId : Option String
  entryPoints : Option (List EntryPoint)
  deriving DecidableEq, Repr

/-- A calendar event as the repository reads it. -/
structure EventData where
  id : String
  summary : Option String
  description : Option String
  start : EventTime
  «end» : EventTime
  attendees : Option (List Attendee)
  conferenceData : Option ConferenceData
  created : Option String
  updated : Option String
  creator : Option String
  organizer : Option String
  status : Option String
  htmlLink : Option String
  location : Option String
  deriving DecidableEq, Repr

/-! ### `GoogleMeetAPI._formatMeetingData` (GoogleMeetAPI.js lines 420-467) -/

/-- A formatted attendee of the meeting record. -/
structure FormattedAttendee where
  email : String
  status : String
  optional : Bool
  deriving DecidableEq, Repr

/-- The normalized meeting record produced by `_formatMeetingData`.
`meet_link` is `Option String` because when a video entry point exists
the code copies its `uri` verbatim, which may be `undefined`; the other
string defaults collapse to plain strings. -/
structure MeetingRecord where
  id : String
  summary : String
  description : String
  start_time : Option String
  end_time : Option String
  meet_link : Option String
  phone_info : String
  attendees : List FormattedAttendee
  created : Option String
  updated : Option String
  creator : Option String
  organizer : Option String
  status : Option String
  html_link : Option String
  conference_id : String
  location : String
  deriving DecidableEq, Repr

/-- JavaScript `a || b` over two possibly-undefined strings, as in
`event.start.dateTime || event.start.date`. -/
def jsOrOptStr (a b : Option String) : Option String :=
  if jsTruthyStr a then a else b

/-- `_formatMeetingData(event)`: `null` when the event is absent or has
no `conferenceData`; otherwise the normalized record, with the defaults
the code applies (`'無標題'` for a falsy summary, `''` for falsy
description / conference id / location, empty meet link and phone info
when no matching entry point exists, `'needsAction'` and `false` for
absent attendee response status and optional flag). -/
def formatMeetingData (eventOpt : Option EventData) : Option MeetingRecord :=
  match eventOpt with
  | none => none
  | some event =>
    match event.conferenceData with
    | none => none
    | some cd =>
      let videoEntry : Option EntryPoint :=
        match cd.entryPoints with
        | none => none
        | some eps => eps.find? (fun ep => ep.entryPointType == "video")
      let phoneEntry : Option EntryPoint :=
        match cd.entryPoints with
        | none => none
        | some eps => eps.find? (fun ep => ep.entryPointType == "phone")
      let meetLink : Option String :=
        match videoEntry with
        | none => some ""
        | some ep => ep.uri
      let phoneInfo : String :=
        match phoneEntry with
        | none => ""
        | some ep => (jsOrStr ep.label "" ++ " " ++ jsOrStr ep.uri "").trim
      some
        { id := event.id
          summary := jsOrStr event.summary "無標題"
          description := jsOrStr event.description ""
          start_time := jsOrOptStr event.start.dateTime event.start.date
          end_time := jsOrOptStr event.«end».dateTime event.«end».date
          meet_link := meetLink
          phone_info := phoneInfo
          attendees := (event.attendees.getD []).map (fun attendee =>
            { email := attendee.email
              status := jsOrStr attendee.responseStatus "needsAction"
              optional := attendee.optional.getD false })
          created := event.created
          updated := event.updated
          creator := event.creator
          organizer := event.organizer
          status := event.status
          html_link := event.htmlLink
          conference_id := jsOrStr cd.conferenceId ""
          location := jsOrStr event.location "" }

/-- The two error branches of `GoogleMeetAPI.getMeeting` before the
generic wrapper: the event lacks conference data, or `_formatMeetingData`
returned `null`. -/
inductive MeetingError where
  | noConferenceData
  | formatFailed
  deriving DecidableEq, Repr

/-- `GoogleMeetAPI.getMeeting` (lines 137-160) after a successful
`events.get` returning `event`: throw when the event has no
`conferenceData`, throw when `_formatMeetingData` returns `null`,
otherwise return the record. -/
def getMeeting (event : EventData) : Except MeetingError MeetingRecord :=
  match event.conferenceData with
  | none => Except.error MeetingError.noConferenceData
  | some _ =>
    match formatMeetingData (some event) with
    | none => Except.error MeetingError.formatFailed
    | some meeting => Except.ok meeting

/-! ### `GoogleMeetAPI.createMeeting` (GoogleMeetAPI.js lines 171-214) -/

/-- `conferenceData.createRequest` of a newly built event. -/
structure CreateRequest where
  requestId : String
  deriving DecidableEq, Repr

/-- The event resource `createMeeting` sends to `events.insert`. -/
structure NewMeetingEvent where
  summary : String
  description : String
  start : EventTime
  «end» : EventTime
  attendees : List Attendee
  createRequest : CreateRequest
  deriving DecidableEq, Repr

/-- The conference request identifier
`` `meet-${Date.now()}-${Math.random().toString(36).substr(2, 9)}` ``:
the timestamp in milliseconds and the random suffix drawn at the call. -/
def generateRequestId (nowMs : Nat) (randSuffix : String) : String :=
  "meet-" ++ toString nowMs ++ "-" ++ randSuffix

/-- The event object built by `createMeeting(summary, startTime, endTime,
description, attendees)` with the ambient timestamp and random suffix:
conference creation is always requested, with the freshly generated
request identifier. -/
def createMeetingEvent (summary startTime endTime description : String)
    (attendees : List String) (nowMs : Nat) (randSuffix : String) :
    NewMeetingEvent :=
  { summary := summary
    description := description
    start := { dateTime := some startTime, date := none, timeZone := some "UTC" }
    «end» := { dateTime := some endTime, date := none, timeZone := some "UTC" }
    attendees := attendees.map (fun email =>
      { email := email, responseStatus := none, optional := none })
    createRequest := { requestId := generateRequestId nowMs randSuffix } }

/-! ### `GoogleMeetAPI.updateMeeting` (GoogleMeetAPI.js lines 222-283) -/

/-- The destructured argument of `updateMeeting(meetingId, { summary,
description, startTime, endTime, attendees })`: `none` is a field absent
from the call (`undefined`). -/
structure UpdateFields where
  summary : Option String
  description : Option String
  startTime : Option String
  endTime : Option String
  attendees : Option (List String)
  deriving DecidableEq, Repr

/-- The update object `updateMeeting` builds: a spread copy of the
existing event, with each field overwritten only when the corresponding
argument is not `undefined` (`if (x !== undefined)` guards in the
source). -/
def applyUpdates (existingEvent : EventData) (u : UpdateFields) : EventData :=
  { existingEvent with
    summary := match u.summary with
      | some s => some s
      | none => existingEvent.summary
    description := match u.description with
      | some d => some d
      | none => existingEvent.description
    start := match u.startTime with
      | some s => { dateTime := some s, date := none, timeZone := some "UTC" }
      | none => existingEvent.start
    «end» := match u.endTime with
      | some e => { dateTime := some e, date := none, timeZone := some "UTC" }
      | none => existingEvent.«end»
    attendees := match u.attendees with
      | some l => some (l.map (fun email =>
          { email := email, responseStatus := none, optional := none }))
      | none => existingEvent.attendees }

/-! ### `GoogleMeetAPI.checkTimeConflicts` and `checkAvailability`
(GoogleMeetAPI.js lines 309-374)

Timestamps are modelled as integers (the value of `new Date(...)` on the
ISO strings); `listEvents` is the provider listing returned by
`events.list` for each calendar id. -/

/-- An event row as the conflict scan reads it: id, raw summary, and the
parsed start/end instants (`new Date(event.start.dateTime ||
event.start.date)` and the same for `end`). -/
structure CalEvent where
  id : String
  summary : Option String
  startT : Int
  endT : Int
  deriving DecidableEq, Repr

/-- A conflict entry pushed by `checkTimeConflicts`. -/
structure ConflictInfo where
  id : String
  summary : String
  start_time : Int
  end_time : Int
  calendar : String
  deriving DecidableEq, Repr

/-- The overlap test of the source: `eventStart < checkEnd && checkStart
< eventEnd`. -/
def eventsOverlap (eventStart eventEnd checkStart checkEnd : Int) : Bool :=
  decide (eventStart < checkEnd) && decide (checkStart < eventEnd)

/-- The conflict entry built for an overlapping event of a calendar. -/
def conflictOf (calendarId : String) (event : CalEvent) : ConflictInfo :=
  { id := event.id
    summary := jsOrStr event.summary "無標題"
    start_time := event.startT
    end_time := event.endT
    calendar := calendarId }

/-- Inner loop of `checkTimeConflicts`: test every listed event of one
calendar against the queried interval and push the overlapping ones. -/
def scanCalendarEvents (calendarId : String) (checkStart checkEnd : Int) :
    List CalEvent → List ConflictInfo
  | [] => []
  | event :: rest =>
    if eventsOverlap event.startT event.endT checkStart checkEnd then
      conflictOf calendarId event ::
        scanCalendarEvents calendarId checkStart checkEnd rest
    else
      scanCalendarEvents calendarId checkStart checkEnd rest

/-- `checkTimeConflicts(startTime, endTime, calendars)`: aggregate the
per-calendar scans in calendar order. -/
def checkTimeConflicts (listEvents : String → List CalEvent)
    (startTime endTime : Int) : List String → List ConflictInfo
  | [] => []
  | calendarId :: rest =>
    scanCalendarEvents calendarId startTime endTime (listEvents calendarId)
      ++ checkTimeConflicts listEvents startTime endTime rest

/-- The object returned by `checkAvailability`. -/
structure AvailabilityResult where
  available : Bool
  conflicts : List ConflictInfo
  checked_calendars : List String
  deriving DecidableEq, Repr

/-- `checkAvailability(startTime, endTime, calendars)`: wraps
`checkTimeConflicts`; `available` is `conflicts.length === 0`. -/
def checkAvailability (listEvents : String → List CalEvent)
    (startTime endTime : Int) (calendars : List String) : AvailabilityResult :=
  let conflicts := checkTimeConflicts listEvents startTime endTime calendars
  { available := conflicts.length == 0
    conflicts := conflicts
    checked_calendars := calendars }

/-! ## Helper lemmas -/

/-- The port scan returns the first free port of the scanned window. -/
lemma findAvailablePortAux_eq_some (occupied : Nat → Bool) :
    ∀ (fuel startPort k : Nat), startPort ≤ k → k < startPort + fuel →
      (∀ p, startPort ≤ p → p < k → occupied p = true) → occupied k = false →
      findAvailablePortAux occupied startPort fuel = some k := by
  intro fuel
  induction fuel with
  | zero => intro startPort k h1 h2 _ _; omega
  | succ n ih =>
    intro startPort k h1 h2 h3 h4
    by_cases hocc : occupied startPort = true
    · have hlt : startPort < k := by
        rcases Nat.lt_or_ge startPort k with h | h
        · exact h
        · have : startPort = k := le_antisymm h1 h
          rw [this] at hocc
          rw [hocc] at h4
          exact absurd h4 (by simp)
      have := ih (startPort + 1) k hlt (by omega)
        (fun p hp hpk => h3 p (by omega) hpk) h4
      simpa [findAvailablePortAux, hocc] using this
    · have hk : startPort = k := by
        rcases Nat.lt_or_ge startPort k with h | h
        · exact absurd (h3 startPort le_rfl h) hocc
        · exact le_antisymm h1 h
      subst hk
      have hocc2 : occupied startPort = false := by
        simpa using hocc
      simp [findAvailablePortAux, hocc2]

/-- The port scan returns `none` when the whole scanned window is occupied. -/
lemma findAvailablePortAux_eq_none (occupied : Nat → Bool) :
    ∀ (fuel startPort : Nat),
      (∀ p, startPort ≤ p → p < startPort + fuel → occupied p = true) →
      findAvailablePortAux occupied startPort fuel = none := by
  intro fuel
  induction fuel with
  | zero => intro startPort _; rfl
  | succ n ih =>
    intro startPort h
    have hocc : occupied startPort = true := h startPort le_rfl (by omega)
    have := ih (startPort + 1) (fun p hp hpn => h p (by omega) (by omega))
    simpa [findAvailablePortAux, hocc] using this

/-- Membership in the per-calendar conflict scan. -/
lemma mem_scanCalendarEvents {calendarId : String} {checkStart checkEnd : Int}
    {c : ConflictInfo} :
    ∀ {events : List CalEvent},
      c ∈ scanCalendarEvents calendarId checkStart checkEnd events ↔
        ∃ ev ∈ events,
          eventsOverlap ev.startT ev.endT checkStart checkEnd = true ∧
          c = conflictOf calendarId ev := by
  intro events
  induction events with
  | nil => simp [scanCalendarEvents]
  | cons ev rest ih =>
    simp only [scanCalendarEvents]
    by_cases hov : eventsOverlap ev.startT ev.endT checkStart checkEnd = true
    · rw [if_pos hov]
      simp only [List.mem_cons, ih]
      constructor
      · rintro (rfl | ⟨ev2, hmem, hov2, rfl⟩)
        · exact ⟨ev, Or.inl rfl, hov, rfl⟩
        · exact ⟨ev2, Or.inr hmem, hov2, rfl⟩
      · rintro ⟨ev2, rfl | hmem2, hov2, rfl⟩
        · exact Or.inl rfl
        · exact Or.inr ⟨ev2, hmem2, hov2, rfl⟩
    · rw [if_neg hov]
      simp only [List.mem_cons, ih]
      constructor
      · rintro ⟨ev2, hmem, hov2, rfl⟩
        exact ⟨ev2, Or.inr hmem, hov2, rfl⟩
      · rintro ⟨ev2, rfl | hmem2, hov2, rfl⟩
        · exact absurd hov2 hov
        · exact ⟨ev2, hmem2, hov2, rfl⟩

/-- Membership in the aggregated conflict list. -/
lemma mem_checkTimeConflicts {listEvents : String → List CalEvent}
    {startTime endTime : Int} {c : ConflictInfo} :
    ∀ {calendars : List String},
      c ∈ checkTimeConflicts listEvents startTime endTime calendars ↔
        ∃ cal ∈ calendars, ∃ ev ∈ listEvents cal,
          eventsOverlap ev.startT ev.endT startTime endTime = true ∧
          c = conflictOf cal ev := by
  intro calendars
  induction calendars with
  | nil => simp [checkTimeConflicts]
  | cons cal rest ih =>
    simp only [checkTimeConflicts, List.mem_append, ih, mem_scanCalendarEvents,
      List.mem_cons]
    constructor
    · rintro (⟨ev, hmem, hov, rfl⟩ | ⟨cal2, hcal, ev, hmem, hov, rfl⟩)
      · exact ⟨cal, Or.inl rfl, ev, hmem, hov, rfl⟩
      · exact ⟨cal2, Or.inr hcal, ev, hmem, hov, rfl⟩
    · rintro ⟨cal2, rfl | hcal2, ev, hmem, hov, rfl⟩
      · exact Or.inl ⟨ev, hmem, hov, rfl⟩
      · exact Or.inr ⟨cal2, hcal2, ev, hmem, hov, rfl⟩

/-- Appending to a fixed string on the left is injective. -/
lemma string_append_left_cancel {p s1 s2 : String} (h : p ++ s1 = p ++ s2) :
    s1 = s2 := by
  have hd := congrArg String.data h
  simp only [String.data_append] at hd
  exact String.ext (List.append_cancel_left hd)

/-- A generated conference request identifier is never the empty string. -/
lemma generateRequestId_ne_empty (nowMs : Nat) (randSuffix : String) :
    generateRequestId nowMs randSuffix ≠ "" := by
  intro h
  have hd := congrArg String.data h
  simp only [generateRequestId, String.data_append] at hd
  simp at hd

/-! ## Claims -/

/-- C3: `findAvailablePort` binds the first (lowest-numbered) available
port of the range 3000-3010: whenever every port below `k` in the range
is occupied and `k` is free, the scan returns `some k` (and the listener
bound during the scan is kept as `this.server`); when every port of the
range is occupied the scan returns `none` — the thrown
no-port-available error — and no listener was retained. -/
theorem findAvailablePort_firstFree (occupied : Nat → Bool) :
    (∀ k, 3000 ≤ k → k ≤ 3010 →
      (∀ p, 3000 ≤ p → p < k → occupied p = true) → occupied k = false →
      findAvailablePort occupied 3000 3010 = some k) ∧
    ((∀ p, 3000 ≤ p → p ≤ 3010 → occupied p = true) →
      findAvailablePort occupied 3000 3010 = none) := by
  constructor
  · intro k h1 h2 h3 h4
    exact findAvailablePortAux_eq_some occupied 11 3000 k h1 (by omega) h3 h4
  · intro h
    exact findAvailablePortAux_eq_none occupied 11 3000
      (fun p hp hpn => h p hp (by omega))

/-- C3 witness: with ports 3000-3002 occupied and 3003 free the scan
binds 3003; with the whole range occupied it returns `none`. -/
theorem findAvailablePort_firstFree_witness :
    findAvailablePort (fun p => decide (p < 3003)) 3000 3010 = some 3003 ∧
    findAvailablePort (fun _ => true) 3000 3010 = none := by
  constructor
  · exact (findAvailablePort_firstFree (fun p => decide (p < 3003))).1 3003
      (by decide) (by decide)
      (fun p _ hp => by simpa using hp) (by decide)
  · exact (findAvailablePort_firstFree (fun _ => true)).2 (fun p _ _ => rfl)

/-- C7: an event of a requested calendar is reported as a conflict
exactly when the half-open overlap test `existingStart < queryEnd AND
queryStart < existingEnd` holds, aggregated across all requested
calendars; an event touching the query boundary exactly is not a
conflict; and `checkAvailability` reports available iff zero conflicts
are found. -/
theorem checkTimeConflicts_overlap_spec (listEvents : String → List CalEvent)
    (startTime endTime : Int) (calendars : List String) :
    (∀ c : ConflictInfo,
      c ∈ checkTimeConflicts listEvents startTime endTime calendars ↔
        ∃ cal ∈ calendars, ∃ ev ∈ listEvents cal,
          (ev.startT < endTime ∧ startTime < ev.endT) ∧
          c = conflictOf cal ev) ∧
    (∀ ev : CalEvent, ev.endT = startTime ∨ ev.startT = endTime →
      eventsOverlap ev.startT ev.endT startTime endTime = false) ∧
    ((checkAvailability listEvents startTime endTime calendars).available = true ↔
      checkTimeConflicts listEvents startTime endTime calendars = []) := by
  refine ⟨?_, ?_, ?_⟩
  · intro c
    rw [mem_checkTimeConflicts]
    constructor
    · rintro ⟨cal, hcal, ev, hmem, hov, rfl⟩
      simp only [eventsOverlap, Bool.and_eq_true, decide_eq_true_eq] at hov
      exact ⟨cal, hcal, ev, hmem, hov, rfl⟩
    · rintro ⟨cal, hcal, ev, hmem, ⟨h1, h2⟩, rfl⟩
      refine ⟨cal, hcal, ev, hmem, ?_, rfl⟩
      simp [eventsOverlap, h1, h2]
  · rintro ev (h | h) <;> simp [eventsOverlap] <;> omega
  · simp only [checkAvailability]
    constructor
    · intro h
      have hlen : (checkTimeConflicts listEvents startTime endTime calendars).length = 0 := by
        simpa using h
      exact List.length_eq_zero.mp hlen
    · intro h
      simp [h]

/-- Demo calendar for the C7 witness: one event 09:30-10:30 and one event
11:00-12:00 (times in minutes from midnight) on the primary calendar. -/
def demoListEvents : String → List CalEvent := fun calendarId =>
  if calendarId == "primary" then
    [{ id := "a", summary := some "Existing", startT := 570, endT := 630 },
     { id := "b", summary := some "Boundary", startT := 660, endT := 720 }]
  else []

/-- C7 witness: querying 10:00-11:00 reports the 09:30-10:30 event as a
conflict, the 11:00-12:00 boundary event fails the overlap test, and
availability is `false` because conflicts exist. -/
theorem checkTimeConflicts_overlap_spec_witness :
    conflictOf "primary" { id := "a", summary := some "Existing", startT := 570, endT := 630 }
      ∈ checkTimeConflicts demoListEvents 600 660 ["primary"] ∧
    eventsOverlap 660 720 600 660 = false ∧
    (checkAvailability demoListEvents 600 660 ["primary"]).available = false := by
  have h := checkTimeConflicts_overlap_spec demoListEvents 600 660 ["primary"]
  have hmem : conflictOf "primary"
      { id := "a", summary := some "Existing", startT := 570, endT := 630 }
      ∈ checkTimeConflicts demoListEvents 600 660 ["primary"] :=
    (h.1 _).mpr ⟨"primary", by simp,
      { id := "a", summary := some "Existing", startT := 570, endT := 630 },
      by simp [demoListEvents], ⟨by decide, by decide⟩, rfl⟩
  refine ⟨hmem, h.2.1 { id := "b", summary := some "Boundary", startT := 660, endT := 720 } (Or.inr rfl), ?_⟩
  cases hav : (checkAvailability demoListEvents 600 660 ["primary"]).available
  · rfl
  · have hnil := h.2.2.mp hav
    rw [hnil] at hmem
    exact absurd hmem (List.not_mem_nil _)

/-- C9: `createMeeting` always requests conference creation with the
freshly generated identifier `meet-<timestamp>-<random suffix>`; the
identifier is non-empty, and two identifiers generated in the same
millisecond differ whenever their random suffixes differ. -/
theorem createMeeting_requestId_spec (summary startTime endTime description : String)
    (attendees : List String) (nowMs : Nat) (s1 s2 : String) :
    (createMeetingEvent summary startTime endTime description attendees nowMs
      s1).createRequest.requestId = generateRequestId nowMs s1 ∧
    generateRequestId nowMs s1 ≠ "" ∧
    (s1 ≠ s2 → generateRequestId nowMs s1 ≠ generateRequestId nowMs s2) := by
  refine ⟨rfl, generateRequestId_ne_empty nowMs s1, ?_⟩
  intro hne h
  exact hne (string_append_left_cancel h)

/-- C9 witness: at a fixed timestamp, two distinct random suffixes give
distinct non-empty request identifiers on the built event. -/
theorem createMeeting_requestId_spec_witness :
    (createMeetingEvent "standup" "2025-01-01T10:00:00Z" "2025-01-01T11:00:00Z"
      "" [] 1700000000000 "abc123def").createRequest.requestId
      = generateRequestId 1700000000000 "abc123def" ∧
    generateRequestId 1700000000000 "abc123def" ≠ "" ∧
    generateRequestId 1700000000000 "abc123def" ≠ generateRequestId 1700000000000 "zzz999aaa" := by
  have h := createMeeting_requestId_spec "standup" "2025-01-01T10:00:00Z"
    "2025-01-01T11:00:00Z" "" [] 1700000000000 "abc123def" "zzz999aaa"
  exact ⟨h.1, h.2.1, h.2.2 (by decide)⟩

/-- C10: `_formatMeetingData` returns `null` exactly when the event is
absent or lacks `conferenceData`; for every event carrying
`conferenceData` (start/end fields are always present on provider
events, as in the model) it returns a record — so the
cannot-format-meeting-data branches of `getMeeting`, `createMeeting` and
`updateMeeting` are unreachable for such events — and on that record the
summary defaults to `'無標題'`, conference id and location default to
`''`, meet link and phone info default to empty when no entry points
exist, and each attendee defaults to status `'needsAction'` and
`optional = false`. -/
theorem formatMeetingData_total_spec :
    (∀ x : Option EventData, formatMeetingData x = none ↔
      x = none ∨ ∃ e, x = some e ∧ e.conferenceData = none) ∧
    (∀ (e : EventData) (cd : ConferenceData), e.conferenceData = some cd →
      ∃ m, formatMeetingData (some e) = some m ∧
        getMeeting e = Except.ok m ∧
        (e.summary = none → m.summary = "無標題") ∧
        m.attendees = (e.attendees.getD []).map (fun a =>
          { email := a.email, status := jsOrStr a.responseStatus "needsAction",
            optional := a.optional.getD false }) ∧
        (∀ a ∈ e.attendees.getD [], a.responseStatus = none → a.optional = none →
          ({ email := a.email, status := "needsAction", optional := false } :
            FormattedAttendee) ∈ m.attendees) ∧
        (cd.entryPoints = none → m.meet_link = some "" ∧ m.phone_info = "") ∧
        (cd.conferenceId = none → m.conference_id = "") ∧
        (e.location = none → m.location = "")) ∧
    (∀ e : EventData, e.conferenceData ≠ none →
      getMeeting e ≠ Except.error MeetingError.formatFailed) := by
  refine ⟨?_, ?_, ?_⟩
  · intro x
    match x with
    | none => simp [formatMeetingData]
    | some e =>
      match hcd : e.conferenceData with
      | none => simp [formatMeetingData, hcd]
      | some cd => simp [formatMeetingData, hcd]
  · intro e cd hcd
    simp only [formatMeetingData, hcd]
    refine ⟨_, rfl, ?_, ?_, rfl, ?_, ?_, ?_, ?_⟩
    · simp [getMeeting, formatMeetingData, hcd]
    · intro h
      simp [jsOrStr, h]
    · intro a ha hstat hopt
      have hmem := List.mem_map_of_mem (fun a : Attendee =>
        ({ email := a.email, status := jsOrStr a.responseStatus "needsAction",
           optional := a.optional.getD false } : FormattedAttendee)) ha
      simpa [jsOrStr, hstat, hopt] using hmem
    · intro hep
      simp [hep]
    · intro hcid
      simp [hcid, jsOrStr]
    · intro hloc
      simp [hloc, jsOrStr]
  · intro e hcd
    match hcd2 : e.conferenceData with
    | none => exact absurd hcd2 hcd
    | some cd =>
      simp [getMeeting, formatMeetingData, hcd2]

/-- Demo conference data and event for the C10 witness: conference data
with no entry points and no conference id, one attendee with no response
status and no optional flag, no summary and no location. -/
def demoConfData : ConferenceData := { conferenceId := none, entryPoints := none }

/-- Demo event for the C10 witness. -/
def demoFormatEvent : EventData :=
  { id := "evt1"
    summary := none
    description := none
    start := { dateTime := some "2025-01-01T10:00:00Z", date := none, timeZone := none }
    «end» := { dateTime := some "2025-01-01T11:00:00Z", date := none, timeZone := none }
    attendees := some [{ email := "p@example.com", responseStatus := none, optional := none }]
    conferenceData := some demoConfData
    created := none
    updated := none
    creator := none
    organizer := none
    status := none
    htmlLink := none
    location := none }

/-- C10 witness: the demo event formats to a record carrying every
default of the claim. -/
theorem formatMeetingData_total_spec_witness :
    demoFormatEvent.conferenceData = some demoConfData ∧
    ∃ m, formatMeetingData (some demoFormatEvent) = some m ∧
      m.summary = "無標題" ∧ m.meet_link = some "" ∧ m.conference_id = "" ∧
      m.location = "" ∧
      ({ email := "p@example.com", status := "needsAction", optional := false } :
        FormattedAttendee) ∈ m.attendees := by
  obtain ⟨m, hm, -, hsum, -, hdef, hep, hcid, hloc⟩ :=
    formatMeetingData_total_spec.2.1 demoFormatEvent demoConfData rfl
  refine ⟨rfl, m, hm, hsum rfl, (hep rfl).1, hcid rfl, hloc rfl, ?_⟩
  exact hdef { email := "p@example.com", responseStatus := none, optional := none }
    (by simp [demoFormatEvent]) rfl rfl

/-- C8: `updateMeeting` builds the write-back object from the fetched
event and overwrites only the fields provided in the call: every omitted
field keeps the existing event's value in the object written back, all
fields outside the update surface (id, conference data) are always kept,
and when start, end and attendees are omitted the resulting meeting
record carries the same `start_time`, `end_time` and `attendees` as the
record of the unmodified event. -/
theorem updateMeeting_partial_spec (e : EventData) (u : UpdateFields) :
    (u.summary = none → (applyUpdates e u).summary = e.summary) ∧
    (u.description = none → (applyUpdates e u).description = e.description) ∧
    (u.startTime = none → (applyUpdates e u).start = e.start) ∧
    (u.endTime = none → (applyUpdates e u).«end» = e.«end») ∧
    (u.attendees = none → (applyUpdates e u).attendees = e.attendees) ∧
    (applyUpdates e u).id = e.id ∧
    (applyUpdates e u).conferenceData = e.conferenceData ∧
    (∀ s, u.summary = some s → (applyUpdates e u).summary = some s) ∧
    (∀ cd, e.conferenceData = some cd →
      u.startTime = none → u.endTime = none → u.attendees = none →
      ∃ m m0, formatMeetingData (some (applyUpdates e u)) = some m ∧
        formatMeetingData (some e) = some m0 ∧
        m.start_time = m0.start_time ∧ m.end_time = m0.end_time ∧
        m.attendees = m0.attendees) := by
  refine ⟨?_, ?_, ?_, ?_, ?_, rfl, rfl, ?_, ?_⟩
  · intro h; simp [applyUpdates, h]
  · intro h; simp [applyUpdates, h]
  · intro h; simp [applyUpdates, h]
  · intro h; simp [applyUpdates, h]
  · intro h; simp [applyUpdates, h]
  · intro s h; simp [applyUpdates, h]
  · intro cd hcd hst het hat
    have h1 : (applyUpdates e u).start = e.start := by simp [applyUpdates, hst]
    have h2 : (applyUpdates e u).«end» = e.«end» := by simp [applyUpdates, het]
    have h3 : (applyUpdates e u).attendees = e.attendees := by simp [applyUpdates, hat]
    have hcd2 : (applyUpdates e u).conferenceData = some cd := hcd
    simp only [formatMeetingData, hcd2, hcd]
    refine ⟨_, _, rfl, rfl, ?_, ?_, ?_⟩
    · simp [h1]
    · simp [h2]
    · simp [h3]

/-- Demo update for the C8 witness: only the summary is provided. -/
def demoSummaryUpdate : UpdateFields :=
  { summary := some "New", description := none, startTime := none,
    endTime := none, attendees := none }

/-- C8 witness: updating only the summary of the demo event overwrites
the summary and leaves start, end, attendees, and the record fields
derived from them unchanged. -/
theorem updateMeeting_partial_spec_witness :
    (applyUpdates demoFormatEvent demoSummaryUpdate).summary = some "New" ∧
    (applyUpdates demoFormatEvent demoSummaryUpdate).start = demoFormatEvent.start ∧
    (applyUpdates demoFormatEvent demoSummaryUpdate).«end» = demoFormatEvent.«end» ∧
    (applyUpdates demoFormatEvent demoSummaryUpdate).attendees = demoFormatEvent.attendees ∧
    ∃ m m0, formatMeetingData (some (applyUpdates demoFormatEvent demoSummaryUpdate)) = some m ∧
      formatMeetingData (some demoFormatEvent) = some m0 ∧
      m.start_time = m0.start_time ∧ m.end_time = m0.end_time ∧
      m.attendees = m0.attendees := by
  have h := updateMeeting_partial_spec demoFormatEvent demoSummaryUpdate
  exact ⟨h.2.2.2.2.2.2.2.1 "New" rfl, h.2.2.1 rfl, h.2.2.2.1 rfl, h.2.2.2.2.1 rfl,
    h.2.2.2.2.2.2.2.2 demoConfData rfl rfl rfl rfl⟩

/-- C5: for a persisted bundle with both token fields truthy and a
truthy `expiry_date` in the past, a successful refresh (credential load,
provider refresh and token save all succeed) returns `true` and persists
exactly the provider's refreshed bundle — whose `expiry_date`, supplied
by the provider, is then the on-disk expiry — while a failed refresh
(provider call throws, or credential load fails) returns `false` and
performs no write, leaving the on-disk token file unchanged. -/
theorem refresh_persistence_spec (env : TokenEnv) (tokens : CredentialBundle)
    (e : Int) (hfile : env.tokenFile = some tokens)
    (hacc : jsTruthyStr tokens.access_token = true)
    (href : jsTruthyStr tokens.refresh_token = true)
    (hexp : tokens.expiry_date = some e) (hne : e ≠ 0) (hlt : e < env.now) :
    (∀ newCredentials, env.refreshResult = some newCredentials →
      env.credentialsOk = true → env.saveOk = true →
      (hasValidTokens env).valid = true ∧
      (hasValidTokens env).disk = some newCredentials ∧
      (hasValidTokens env).wrote = true ∧
      (∀ e2, newCredentials.expiry_date = some e2 → env.now ≤ e2 →
        ∃ b, (hasValidTokens env).disk = some b ∧ b.expiry_date = some e2 ∧
          env.now ≤ e2)) ∧
    (env.refreshResult = none →
      (hasValidTokens env).valid = false ∧
      (hasValidTokens env).disk = some tokens ∧
      (hasValidTokens env).wrote = false) ∧
    (env.credentialsOk = false →
      (hasValidTokens env).valid = false ∧
      (hasValidTokens env).disk = some tokens ∧
      (hasValidTokens env).wrote = false) := by
  refine ⟨?_, ?_, ?_⟩
  · intro newCredentials hres hcred hsave
    have hval : hasValidTokens env =
        { valid := true, disk := some newCredentials, wrote := true } := by
      simp [hasValidTokens, hfile, hacc, href, jsTruthyInt, hexp, hne, hlt,
        hres, hcred, hsave]
    rw [hval]
    exact ⟨rfl, rfl, rfl, fun e2 he2 hfut => ⟨newCredentials, rfl, he2, hfut⟩⟩
  · intro hres
    have hval : hasValidTokens env =
        { valid := false, disk := some tokens, wrote := false } := by
      cases hcred : env.credentialsOk <;>
        simp [hasValidTokens, hfile, hacc, href, jsTruthyInt, hexp, hne, hlt,
          hres, hcred]
    rw [hval]
    exact ⟨rfl, rfl, rfl⟩
  · intro hcred
    have hval : hasValidTokens env =
        { valid := false, disk := some tokens, wrote := false } := by
      simp [hasValidTokens, hfile, hacc, href, jsTruthyInt, hexp, hne, hlt, hcred]
    rw [hval]
    exact ⟨rfl, rfl, rfl⟩

/-- The stored expired bundle of the C5 witness environments. -/
def staleBundle : CredentialBundle :=
  { access_token := some "at", refresh_token := some "rt", expiry_date := some 10 }

/-- The provider's refreshed bundle of the C5 witness environment. -/
def refreshedBundle : CredentialBundle :=
  { access_token := some "at2", refresh_token := some "rt", expiry_date := some 1000 }

def refreshOkEnv : TokenEnv :=
  { tokenFile := some staleBundle, now := 100, credentialsOk := true,
    refreshResult := some refreshedBundle, saveOk := true }

/-- Expired bundle whose refresh fails, for the C5 witness. -/
def refreshFailEnv : TokenEnv := { refreshOkEnv with refreshResult := none }

/-- C5 witness: the successful refresh persists the provider bundle with
its future expiry; the failed refresh leaves the file unchanged without
a write. -/
theorem refresh_persistence_spec_witness :
    (hasValidTokens refreshOkEnv).valid = true ∧
    (hasValidTokens refreshOkEnv).disk = some refreshedBundle ∧
    (hasValidTokens refreshOkEnv).wrote = true ∧
    (hasValidTokens refreshFailEnv).valid = false ∧
    (hasValidTokens refreshFailEnv).disk = refreshFailEnv.tokenFile ∧
    (hasValidTokens refreshFailEnv).wrote = false := by
  have h1 := refresh_persistence_spec refreshOkEnv staleBundle
    10 (by rfl) (by decide) (by decide) (by rfl) (by decide) (by decide)
  have h2 := refresh_persistence_spec refreshFailEnv staleBundle
    10 (by rfl) (by decide) (by decide) (by rfl) (by decide) (by decide)
  obtain ⟨ha, hb, hc, -⟩ := h1.1 refreshedBundle (by rfl) rfl rfl
  obtain ⟨hd, he2, hf⟩ := h2.2.1 rfl
  exact ⟨ha, hb, hc, hd, he2, hf⟩

/-- Bundle with both token fields but `expiry_date: 0`: the falsy check
`tokens.expiry_date && tokens.expiry_date < Date.now()` skips the
refresh entirely, for the C6 counterexample. -/
def zeroExpiryBundle : CredentialBundle :=
  { access_token := some "at", refresh_token := some "rt", expiry_date := some 0 }

/-- Environment holding `zeroExpiryBundle` with no working refresh path. -/
def zeroExpiryEnv : TokenEnv :=
  { tokenFile := some zeroExpiryBundle, now := 100, credentialsOk := false,
    refreshResult := none, saveOk := false }

/-- C6 counterexample: the stored bundle has `expiry_date = 0`, which is
in the past (`0 < now`), no refresh is attempted or succeeds, yet
`hasValidTokens` returns `true` — refuting the claim that `true` is
returned only when the expiry is absent, not yet reached, or a refresh
just succeeded. -/
theorem hasValidTokens_zero_expiry_counterexample :
    (hasValidTokens zeroExpiryEnv).valid = true ∧
    zeroExpiryEnv.tokenFile = some zeroExpiryBundle ∧
    zeroExpiryBundle.expiry_date = some 0 ∧
    (0 : Int) < zeroExpiryEnv.now ∧
    zeroExpiryEnv.refreshResult = none ∧
    (hasValidTokens zeroExpiryEnv).wrote = false := by
  decide

/-- C6 (amended): a bundle missing (or carrying a falsy) `access_token`
or `refresh_token` is never valid; `hasValidTokens` returns `true` only
when both token fields are truthy and the `expiry_date` is absent, or
zero (falsy, so treated like absent), or not earlier than the current
time, or the refresh path succeeded end to end; and conversely both
fields truthy with an absent/zero/future expiry give `true`. -/
theorem hasValidTokens_validity_spec (env : TokenEnv) (tokens : CredentialBundle)
    (hfile : env.tokenFile = some tokens) :
    ((jsTruthyStr tokens.access_token = false ∨
        jsTruthyStr tokens.refresh_token = false) →
      (hasValidTokens env).valid = false) ∧
    ((hasValidTokens env).valid = true →
      jsTruthyStr tokens.access_token = true ∧
      jsTruthyStr tokens.refresh_token = true ∧
      (tokens.expiry_date = none ∨ tokens.expiry_date = some 0 ∨
        (∃ e, tokens.expiry_date = some e ∧ env.now ≤ e) ∨
        (env.credentialsOk = true ∧ env.refreshResult.isSome = true ∧
          env.saveOk = true))) ∧
    (jsTruthyStr tokens.access_token = true →
      jsTruthyStr tokens.refresh_token = true →
      (tokens.expiry_date = none ∨ tokens.expiry_date = some 0 ∨
        (∃ e, tokens.expiry_date = some e ∧ env.now ≤ e)) →
      (hasValidTokens env).valid = true) := by
  refine ⟨?_, ?_, ?_⟩
  · rintro (h | h) <;> simp [hasValidTokens, hfile, h]
  · intro hvalid
    by_cases hacc : jsTruthyStr tokens.access_token = true
    · by_cases href : jsTruthyStr tokens.refresh_token = true
      · refine ⟨hacc, href, ?_⟩
        cases hexp : tokens.expiry_date with
        | none => exact Or.inl rfl
        | some e =>
          by_cases he0 : e = 0
          · subst he0
            exact Or.inr (Or.inl rfl)
          · by_cases hlt : e < env.now
            · refine Or.inr (Or.inr (Or.inr ?_))
              cases hcred : env.credentialsOk
              · simp [hasValidTokens, hfile, hacc, href, jsTruthyInt, hexp,
                  he0, hlt, hcred] at hvalid
              · cases hres : env.refreshResult with
                | none =>
                  simp [hasValidTokens, hfile, hacc, href, jsTruthyInt, hexp,
                    he0, hlt, hcred, hres] at hvalid
                | some nc =>
                  cases hsave : env.saveOk
                  · simp [hasValidTokens, hfile, hacc, href, jsTruthyInt, hexp,
                      he0, hlt, hcred, hres, hsave] at hvalid
                  · exact ⟨rfl, rfl, rfl⟩
            · exact Or.inr (Or.inr (Or.inl ⟨e, rfl, by omega⟩))
      · have href2 : jsTruthyStr tokens.refresh_token = false := by
          simpa using href
        rw [(by simp [hasValidTokens, hfile, href2] :
          (hasValidTokens env).valid = false)] at hvalid
        exact absurd hvalid (by simp)
    · have hacc2 : jsTruthyStr tokens.access_token = false := by
        simpa using hacc
      rw [(by simp [hasValidTokens, hfile, hacc2] :
        (hasValidTokens env).valid = false)] at hvalid
      exact absurd hvalid (by simp)
  · rintro hacc href (hexp | hexp | ⟨e, hexp, hfut⟩)
    · simp [hasValidTokens, hfile, hacc, href, hexp, jsTruthyInt]
    · simp [hasValidTokens, hfile, hacc, href, hexp, jsTruthyInt]
    · have hnotlt : ¬ e < env.now := by omega
      simp [hasValidTokens, hfile, hacc, href, hexp, jsTruthyInt, hnotlt]

/-- Bundle missing the refresh token, for the C6 witness. -/
def noRefreshBundle : CredentialBundle :=
  { access_token := some "at", refresh_token := none, expiry_date := none }

/-- Environment storing `noRefreshBundle`, for the C6 witness. -/
def missingFieldEnv : TokenEnv :=
  { tokenFile := some noRefreshBundle, now := 0, credentialsOk := false,
    refreshResult := none, saveOk := false }

/-- Unexpired bundle, for the C6 witness. -/
def freshBundle : CredentialBundle :=
  { access_token := some "at", refresh_token := some "rt", expiry_date := some 200 }

/-- Environment storing `freshBundle` at time 100, for the C6 witness. -/
def freshEnv : TokenEnv :=
  { tokenFile := some freshBundle, now := 100, credentialsOk := false,
    refreshResult := none, saveOk := false }

/-- C6 witness: a bundle without a refresh token is invalid; a bundle
with both fields and a future expiry is valid. -/
theorem hasValidTokens_validity_spec_witness :
    (hasValidTokens missingFieldEnv).valid = false ∧
    (hasValidTokens freshEnv).valid = true := by
  constructor
  · exact (hasValidTokens_validity_spec missingFieldEnv noRefreshBundle
      (by rfl)).1 (Or.inr (by decide))
  · exact (hasValidTokens_validity_spec freshEnv freshBundle
      (by rfl)).2.2 (by decide) (by decide)
      (Or.inr (Or.inr ⟨200, by rfl, (by norm_num : (100 : Int) ≤ 200)⟩))

/-- C4 counterexample: the request `/oauth2callback?error=&code=4/code`
carries an error parameter (the empty string), but `if (error)` is falsy
on `''`, so the handler falls through to the code exchange and — the
exchange succeeding — sets the success flag and renders the success
page, refuting the claim for requests with an empty error parameter. -/
theorem callback_empty_error_counterexample :
    ({ code := some "4/code", error := some "" } : CallbackQuery).error.isSome = true ∧
    handleRequest "/oauth2callback" { code := some "4/code", error := some "" }
      true false
      = (true, { status := 200, page := AuthPage.successPage }) := by
  decide

/-- C4 (amended): for every callback request on the redirect path whose
query carries a truthy (non-empty) `error` parameter, the handler
renders the 400 failure page and returns with the completion flag
unchanged — in particular that request never transitions the session to
success. -/
theorem callback_error_param_spec (q : CallbackQuery) (exchangeOk flag : Bool)
    (herr : jsTruthyStr q.error = true) :
    handleRequest "/oauth2callback" q exchangeOk flag
      = (flag, { status := 400, page := AuthPage.errorParamPage }) := by
  simp [handleRequest, herr]

/-- C4 witness: an `access_denied` error callback renders the failure
page and leaves the (unset) success flag unset. -/
theorem callback_error_param_spec_witness :
    handleRequest "/oauth2callback" { code := none, error := some "access_denied" }
      true false
      = (false, { status := 400, page := AuthPage.errorParamPage }) :=
  callback_error_param_spec { code := none, error := some "access_denied" }
    true false (by decide)

/-- Flow state at the moment the wait resolves: polling interval live,
one tracked connection, listener up. -/
def completedFlowState : FlowState :=
  { checkIntervalActive := true, activeConnections := [7], serverSome := true }

/-- Flow state used by the C2 witness: two tracked connections, listener
up. -/
def stoppingFlowState : FlowState :=
  { checkIntervalActive := false, activeConnections := [1, 2], serverSome := true }

/-- C2 counterexample: in a state with one tracked open connection and a
live listener, the resolution of the wait (reaching COMPLETED or
TIMED_OUT inside `start`) only clears the polling interval: the tracked
connection is still open and the listener still up afterwards — the
forced teardown the claim describes does not happen on reaching those
states. -/
theorem resolve_leaves_listener_counterexample :
    (resolveWaitStep completedFlowState).checkIntervalActive = false ∧
    (resolveWaitStep completedFlowState).activeConnections = [7] ∧
    (resolveWaitStep completedFlowState).serverSome = true := by
  decide

/-- C2 (amended): reaching COMPLETED/TIMED_OUT stops the polling
interval and nothing else; the forced teardown is implemented in
`stop()` — invoked from the process cleanup handler, not on flow
completion — which, when a listener exists, destroys every tracked
connection without waiting, clears the tracking set, nulls the listener
handle, and resolves within the 2-second grace bound even when the
close callback takes longer (the handle is then abandoned). -/
theorem teardown_spec (s : FlowState) (closeDelayMs : Nat) :
    ((resolveWaitStep s).checkIntervalActive = false ∧
      (resolveWaitStep s).activeConnections = s.activeConnections ∧
      (resolveWaitStep s).serverSome = s.serverSome) ∧
    (s.serverSome = true →
      (AuthServer.stop s closeDelayMs).destroyed = s.activeConnections ∧
      (AuthServer.stop s closeDelayMs).state.activeConnections = [] ∧
      (AuthServer.stop s closeDelayMs).state.serverSome = false) ∧
    (AuthServer.stop s closeDelayMs).resolveTimeMs ≤ stopGraceMs := by
  refine ⟨⟨rfl, rfl, rfl⟩, ?_, ?_⟩
  · intro hs
    simp [AuthServer.stop, hs]
  · cases hs : s.serverSome <;> simp [AuthServer.stop, hs, stopGraceMs]

/-- C2 witness: stopping with two tracked connections and a slow (5 s)
close destroys both connections, clears the listener, and resolves
within the 2-second grace bound. -/
theorem teardown_spec_witness :
    (AuthServer.stop stoppingFlowState 5000).destroyed = [1, 2] ∧
    (AuthServer.stop stoppingFlowState 5000).state.serverSome = false ∧
    (AuthServer.stop stoppingFlowState 5000).resolveTimeMs ≤ stopGraceMs := by
  have h := teardown_spec stoppingFlowState 5000
  exact ⟨(h.2.1 rfl).1, (h.2.1 rfl).2.2, h.2.2⟩

/-- The completion flag set by one callback request during the wait. -/
lemma handleRequest_callback_flag (q : CallbackQuery) (exchangeOk : Bool) :
    (handleRequest "/oauth2callback" q exchangeOk false).1 = true ↔
      (jsTruthyStr q.error = false ∧ jsTruthyStr q.code = true ∧
        exchangeOk = true) := by
  have h1 : ("/oauth2callback" == "/") = false := by decide
  have h2 : ("/oauth2callback" == "/oauth2callback") = true := by decide
  simp only [handleRequest, h1, h2]
  cases herr : jsTruthyStr q.error <;> cases hcode : jsTruthyStr q.code <;>
    cases exchangeOk <;> simp

/-- Bundle with both token fields and no expiry, for the C1
counterexample. -/
def evergreenBundle : CredentialBundle :=
  { access_token := some "at", refresh_token := some "rt", expiry_date := none }

/-- Token environment already holding `evergreenBundle`. -/
def validTokensEnv : TokenEnv :=
  { tokenFile := some evergreenBundle, now := 0, credentialsOk := false,
    refreshResult := none, saveOk := false }

/-- Valid-token environment with no callback, for the C1 counterexample. -/
def validTokensAuthEnv : AuthEnv :=
  { tokenEnv := validTokensEnv, credFile := none, occupied := fun _ => true,
    browserOpens := false, callback := none }

/-- C1 counterexample: when the stored tokens are already valid, `start`
returns `true` immediately although no callback ever arrives on the
listener (none is even created) — refuting the only-if direction of the
claimed biconditional. -/
theorem start_true_without_callback_counterexample :
    AuthServer.start validTokensAuthEnv true = true ∧
    validTokensAuthEnv.callback = none := by
  exact ⟨rfl, rfl⟩

/-- C1 (amended): `start(openBrowser)` returns `true` iff valid tokens
already exist at entry (`hasValidTokens`, including its
successful-refresh path), or credentials load, a port in 3000-3010 is
bound, and a callback whose query carries a truthy code and no truthy
error arrives and completes the code-for-token exchange and persistence
no later than the 5-minute timeout; it returns `false` on timeout (the
browser need not ever have opened — `openBrowser` does not influence
the result), port exhaustion, and credential load failure, and —
being a total boolean function in the model, mirroring the
`try`/`catch` that converts every error to `false` — it never throws
past this boundary. -/
theorem start_result_spec (env : AuthEnv) (openBrowser : Bool) :
    AuthServer.start env openBrowser = true ↔
      ((hasValidTokens env.tokenEnv).valid = true ∨
        ((loadCredentials env.credFile).isSome = true ∧
          (findAvailablePort env.occupied 3000 3010).isSome = true ∧
          ∃ ev, env.callback = some ev ∧ ev.tick ≤ authTimeoutTicks ∧
            jsTruthyStr ev.query.error = false ∧
            jsTruthyStr ev.query.code = true ∧ ev.exchangeOk = true)) := by
  unfold AuthServer.start
  by_cases hval : (hasValidTokens env.tokenEnv).valid = true
  · simp [hval]
  · have hval2 : (hasValidTokens env.tokenEnv).valid = false := by simpa using hval
    cases hcred : loadCredentials env.credFile with
    | none => simp [hval2, hcred]
    | some c =>
      cases hport : findAvailablePort env.occupied 3000 3010 with
      | none => simp [hval2, hcred, hport]
      | some p =>
        cases hcb : env.callback with
        | none => simp [hval2, hcred, hport, hcb, waitOutcome]
        | some ev =>
          simp only [hval2, hcred, hport, hcb, waitOutcome, Bool.if_false_left,
            Bool.and_eq_true, decide_eq_true_eq, Option.isSome_some,
            Bool.false_eq_true, if_false]
          constructor
          · intro h
            have hflag := (handleRequest_callback_flag ev.query ev.exchangeOk).mp h.1
            exact Or.inr ⟨trivial, trivial, ev, rfl, h.2, hflag.1, hflag.2.1, hflag.2.2⟩
          · rintro (hv | ⟨-, -, ev2, heq, htick, herr, hcode, hex⟩)
            · exact absurd hv (by simp [hval2])
            · cases Option.some.inj heq
              exact ⟨(handleRequest_callback_flag ev.query ev.exchangeOk).mpr
                ⟨herr, hcode, hex⟩, htick⟩

/-- Token environment with no stored token file, for the C1 witness. -/
def emptyTokenEnv : TokenEnv :=
  { tokenFile := none, now := 0, credentialsOk := true, refreshResult := none,
    saveOk := true }

/-- Credentials file with a `web` client, for the C1 witness. -/
def demoCredFile : CredentialsFile :=
  { web := some { client_id := "id", client_secret := "sec" }, installed := none }

/-- The successful redirect processed at tick 10, for the C1 witness. -/
def demoCallback : CallbackEvent :=
  { tick := 10, query := { code := some "4/abc", error := none }, exchangeOk := true }

/-- Environment whose flow succeeds through the callback, for the C1
witness. -/
def callbackAuthEnv : AuthEnv :=
  { tokenEnv := emptyTokenEnv, credFile := some demoCredFile,
    occupied := fun _ => false, browserOpens := true, callback := some demoCallback }

/-- Environment that times out with no callback and no browser, for the
C1 witness. -/
def timeoutAuthEnv : AuthEnv :=
  { callbackAuthEnv with callback := none, browserOpens := false }

/-- C1 witness: a valid-code callback at tick 10 makes `start` return
`true`; with no callback at all (and no browser opened) the wait times
out and `start` returns `false`. -/
theorem start_result_spec_witness :
    AuthServer.start callbackAuthEnv false = true ∧
    AuthServer.start timeoutAuthEnv false = false := by
  constructor
  · exact (start_result_spec callbackAuthEnv false).mpr
      (Or.inr ⟨rfl, rfl, demoCallback, rfl, by decide, rfl, by decide, rfl⟩)
  · cases hb : AuthServer.start timeoutAuthEnv false
    · rfl
    · rcases (start_result_spec timeoutAuthEnv false).mp hb with hv | ⟨-, -, ev, heq, -⟩
      · exact absurd hv (by decide)
      · exact Option.noConfusion heq

end GoogleMeetMcp
